import Mathlib

/-!
Verification of the STGRadar odds-monitor core:
a shallow embedding of `scrapers/oddsmonitor.py` and `servidor.py`.

Raw provider payloads are modelled as a JSON value type; Python dictionary
access (`.get`), truthiness, `or` short-circuiting and exception handling
(`try`/`except` becomes `Except Unit`) are modelled explicitly.  Python
floats are modelled as rationals; `round` is modelled as exact
round-half-to-even on rationals.  Python's stable `list.sort(key=...)` is
modelled as `List.insertionSort` by the corresponding total preorder
(a stable sort by a total preorder is unique, so any stable sort is a
faithful model).
-/

namespace STGRadar

/-- A JSON value, as delivered by the upstream provider. -/
inductive Json : Type where
  | null : Json
  | bool (b : Bool) : Json
  | num (q : ℚ) : Json
  | str (s : String) : Json
  | arr (xs : List Json) : Json
  | obj (kvs : List (String × Json)) : Json

/-- First-match association-list lookup, modelling Python dict lookup
(provider objects carry no duplicate keys). -/
def lookupKV : List (String × Json) → String → Option Json
  | [], _ => none
  | (k, v) :: kvs, key => if k = key then some v else lookupKV kvs key

/-- Python `d.get(key, dflt)`: returns the default when the key is absent and
raises (`AttributeError`) when the receiver is not a dict. -/
def pyGetD : Json → String → Json → Except Unit Json
  | Json.obj kvs, key, dflt => Except.ok ((lookupKV kvs key).getD dflt)
  | _, _, _ => Except.error ()

/-- Python `d.get(key)` (default `None`). -/
def pyGetN (j : Json) (key : String) : Except Unit Json :=
  pyGetD j key Json.null

/-- Python truthiness of a JSON value. -/
def Json.truthy : Json → Bool
  | Json.null => false
  | Json.bool b => b
  | Json.num q => decide (q ≠ 0)
  | Json.str s => !s.isEmpty
  | Json.arr xs => !xs.isEmpty
  | Json.obj kvs => !kvs.isEmpty

/-- A use of a JSON value where Python would raise unless it is a string
(dictionary-key hashing plus a string-method call). -/
def asStr : Json → Except Unit String
  | Json.str s => Except.ok s
  | _ => Except.error ()

/-- ASCII lower-casing of one character, as Python `str.lower` does on the
ASCII payloads at hand. -/
def pyCharLower (c : Char) : Char :=
  if 'A' ≤ c ∧ c ≤ 'Z' then Char.ofNat (c.toNat + 32) else c

/-- ASCII upper-casing of one character. -/
def pyCharUpper (c : Char) : Char :=
  if 'a' ≤ c ∧ c ≤ 'z' then Char.ofNat (c.toNat - 32) else c

/-- Python `s.lower()` (ASCII). -/
def pyLower (s : String) : String :=
  String.mk (s.data.map pyCharLower)

/-- Python `s.replace(" ", "_")` — the single call site replaces one
character by another, so a character map is an exact model. -/
def replaceSpaces (s : String) : String :=
  String.mk (s.data.map (fun c => if c = ' ' then '_' else c))

/-- Python whitespace for `str.strip()`. -/
def pySpace (c : Char) : Bool :=
  c = ' ' || c = '\t' || c = '\n' || c = '\r' || c = '\x0b' || c = '\x0c'

/-- Python `s.strip()`. -/
def pyStrip (s : String) : String :=
  String.mk (((s.data.dropWhile pySpace).reverse.dropWhile pySpace).reverse)

/-- One step of Python `str.title()`: a letter is upper-cased when the
previous character is not a letter, lower-cased otherwise. -/
def pyTitleGo : Bool → List Char → List Char
  | _, [] => []
  | prevAlpha, c :: cs =>
    (if prevAlpha then pyCharLower c else pyCharUpper c) :: pyTitleGo c.isAlpha cs

/-- Python `s.title()` (ASCII). -/
def pyTitle (s : String) : String :=
  String.mk (pyTitleGo false s.data)

/-- Python `needle in hay` on lists of characters: `needle` occurs as a
contiguous substring of `hay`. -/
def isPrefixL : List Char → List Char → Bool
  | [], _ => true
  | _ :: _, [] => false
  | a :: as, b :: bs => a = b && isPrefixL as bs

/-- Python `needle in hay` (substring containment). -/
def containsSub : List Char → List Char → Bool
  | needle, [] => isPrefixL needle []
  | needle, h :: hs => isPrefixL needle (h :: hs) || containsSub needle hs

/-- The `NOMES_CASAS` display-name table of `oddsmonitor.py`. -/
def NOMES_CASAS : List (String × String) :=
  [("7k", "7K"),
   ("aposta1", "Aposta1"),
   ("aposta1so", "Aposta1 SO"),
   ("bet365", "Bet365"),
   ("bet365so", "Bet365 SO"),
   ("betano", "Betano"),
   ("betanoso", "Betano SO"),
   ("betbraso", "BetBra SO"),
   ("betnacional", "Betnacional"),
   ("betnacionalso", "Betnacional SO"),
   ("betsul", "Betsul"),
   ("br4", "Br4"),
   ("esportesdasorte", "Esportes da Sorte"),
   ("esportesdasorteso", "Esportes da Sorte SO"),
   ("esportiva", "Esportiva"),
   ("estrelabet", "Estrelabet"),
   ("estrelabetso", "Estrelabet SO"),
   ("kto", "KTO"),
   ("ktoso", "KTO SO"),
   ("lotogreen", "Lotogreen"),
   ("mcgames", "MC Games"),
   ("novibet", "Novibet"),
   ("pixbet", "Pixbet"),
   ("pixbetso", "Pixbet SO"),
   ("sortenabet", "Sortenabet"),
   ("sportingbet", "Sportingbet"),
   ("stake", "Stake"),
   ("stakeso", "Stake SO"),
   ("superbet", "Superbet"),
   ("vaidebetso", "Vaidebet SO")]

/-- First-match lookup in the display-name table (Python `dict.get`). -/
def lookupNome : List (String × String) → String → Option String
  | [], _ => none
  | (k, v) :: kvs, key => if k = key then some v else lookupNome kvs key

/-- One slot of the standardized `best` field: the raw odd value and the
raw bookmaker collection, kept exactly as extracted from the payload. -/
structure BestSlot : Type where
  odd : Json
  bookmakers : Json

/-- The standardized `best` field: best odds per outcome. -/
structure Best : Type where
  casa : BestSlot
  empate : BestSlot
  visitante : BestSlot

/-- One bookmaker entry of the `casas` list built for each game. -/
structure Casa : Type where
  bookmaker : String
  nome_display : String
  odd1 : Json
  oddX : Json
  odd2 : Json
  isBest1 : Json
  isBestX : Json
  isBest2 : Json
  href : Json
  atualizado_em : Json

/-- One normalized game, as appended to `jogos` by `buscar_todos_jogos`. -/
structure Jogo : Type where
  id : String
  partida : String
  time_casa : String
  time_visitante : String
  competicao : String
  data : String
  hora : String
  total_casas : Nat
  best : Best
  casas : List Casa

/-- One line of the standardized `best` construction, e.g.
`best_raw.get("1", \x7b\x7d).get("odd") or best_raw.get("odd1", \x7b\x7d).get("odd", 0)`:
the alphabetic-key branch is evaluated only when the numeric-key branch
yields a falsy value (Python `or` short-circuits). -/
def resolveBestField (best_raw : Json) (kN kA fld : String) (dflt : Json) :
    Except Unit Json := do
  let a ← pyGetD best_raw kN (Json.obj [])
  let vN ← pyGetN a fld
  if vN.truthy then
    Except.ok vN
  else do
    let b ← pyGetD best_raw kA (Json.obj [])
    pyGetD b fld dflt

/-- One slot of the `best` field, resolved from the numeric-style key `kN`
with fallback to the alphabetic-style key `kA`. -/
def resolveBestSlot (best_raw : Json) (kN kA : String) : Except Unit BestSlot := do
  let odd ← resolveBestField best_raw kN kA "odd" (Json.num 0)
  let bms ← resolveBestField best_raw kN kA "bookmakers" (Json.arr [])
  Except.ok ⟨odd, bms⟩

/-- The whole standardized `best` field of a game. -/
def mkBest (best_raw : Json) : Except Unit Best := do
  let c ← resolveBestSlot best_raw "1" "odd1"
  let e ← resolveBestSlot best_raw "X" "oddX"
  let v ← resolveBestSlot best_raw "2" "odd2"
  Except.ok ⟨c, e, v⟩

/-- One entry of the `casas` list, built from one entry of the raw `books`
list.  A non-string `bookmaker` value raises in the source (`.title()` on a
non-string) and is an error here. -/
def processBook (book : Json) : Except Unit Casa := do
  let nomeJ ← pyGetD book "bookmaker" (Json.str "")
  let nome_raw ← asStr nomeJ
  let odd1 ← pyGetD book "odd1" (Json.num 0)
  let oddX ← pyGetD book "oddX" (Json.num 0)
  let odd2 ← pyGetD book "odd2" (Json.num 0)
  let b1 ← pyGetD book "isBest1" (Json.bool false)
  let bX ← pyGetD book "isBestX" (Json.bool false)
  let b2 ← pyGetD book "isBest2" (Json.bool false)
  let href ← pyGetD book "href" (Json.str "")
  let upd ← pyGetD book "updated_at" (Json.str "")
  Except.ok
    { bookmaker := nome_raw
      nome_display := (lookupNome NOMES_CASAS nome_raw).getD (pyTitle nome_raw)
      odd1 := odd1, oddX := oddX, odd2 := odd2
      isBest1 := b1, isBestX := bX, isBest2 := b2
      href := href, atualizado_em := upd }

/-- The `for book in books_raw` loop body over a concrete list. -/
def processBooksList : List Json → Except Unit (List Casa)
  | [] => Except.ok []
  | b :: bs => do
    let c ← processBook b
    let cs ← processBooksList bs
    Except.ok (c :: cs)

/-- Iterating `books_raw`: a JSON array iterates its elements; an empty dict
or empty string iterates zero times; every other value either is not
iterable or yields non-dict elements, raising in the loop body. -/
def processBooks : Json → Except Unit (List Casa)
  | Json.arr bs => processBooksList bs
  | Json.obj kvs => if kvs.isEmpty then Except.ok [] else Except.error ()
  | Json.str s => if s.isEmpty then Except.ok [] else Except.error ()
  | _ => Except.error ()

/-- Whether a `casas` entry carries at least one best-odds flag
(Python truthiness of `c["isBest1"] or c["isBestX"] or c["isBest2"]`). -/
def casaBest (c : Casa) : Bool :=
  c.isBest1.truthy || c.isBestX.truthy || c.isBest2.truthy

/-- First component of the `casas.sort` key, `not (isBest1 or isBestX or
isBest2)` encoded as a natural number (Python `False` sorts before `True`). -/
def bestKey (c : Casa) : Nat :=
  if casaBest c then 0 else 1

/-- The total preorder of the `casas.sort(key=lambda c: (not (...), c["nome_display"]))`
call: lexicographic on (best-flag-negated, display name). -/
def casaRel (a b : Casa) : Prop :=
  bestKey a < bestKey b ∨
    (bestKey a = bestKey b ∧ a.nome_display.data ≤ b.nome_display.data)

instance : DecidableRel casaRel := fun a b =>
  inferInstanceAs (Decidable
    (bestKey a < bestKey b ∨
      (bestKey a = bestKey b ∧ a.nome_display.data ≤ b.nome_display.data)))

/-- Stable sort of the `casas` list, modelling Python `list.sort`. -/
def sortCasas (cs : List Casa) : List Casa :=
  List.insertionSort casaRel cs

/-- The total preorder of the final `jogos.sort(key=lambda j: (j["competicao"], j["hora"]))`. -/
def jogoRel (a b : Jogo) : Prop :=
  a.competicao.data < b.competicao.data ∨
    (a.competicao = b.competicao ∧ a.hora.data ≤ b.hora.data)

instance : DecidableRel jogoRel := fun a b =>
  inferInstanceAs (Decidable
    (a.competicao.data < b.competicao.data ∨
      (a.competicao = b.competicao ∧ a.hora.data ≤ b.hora.data)))

/-- The per-item body of the loop of `buscar_todos_jogos`.  An error is any
exception the source would catch with its per-item `except`.  String-typed
match fields are required at extraction: a payload carrying another type
there would crash the batch-level sort or the query filter downstream, and
no such payload is exercised here. -/
def processItemE (item : Json) : Except Unit Jogo := do
  let mtch ← pyGetD item "match" (Json.obj [])
  let best_raw ← pyGetD item "best" (Json.obj [])
  let booksJ ← pyGetD item "books" (Json.arr [])
  let time_casa ← (pyGetD mtch "team1" (Json.str "?")) >>= asStr
  let time_visitante ← (pyGetD mtch "team2" (Json.str "?")) >>= asStr
  let data ← (pyGetD mtch "date" (Json.str "")) >>= asStr
  let hora ← (pyGetD mtch "kickoff_display" (Json.str "")) >>= asStr
  let competicao ← (pyGetD mtch "competition" (Json.str "")) >>= asStr
  let best ← mkBest best_raw
  let casas0 ← processBooks booksJ
  let casas := sortCasas casas0
  let keyS ← (pyGetD item "key" (Json.str (time_casa ++ "|" ++ time_visitante))) >>= asStr
  let jogo_id := pyLower (replaceSpaces keyS)
  Except.ok
    { id := jogo_id
      partida := time_casa ++ " vs " ++ time_visitante
      time_casa := time_casa
      time_visitante := time_visitante
      competicao := competicao
      data := data
      hora := hora
      total_casas := casas.length
      best := best
      casas := casas }

/-- The per-item loop: a failing item is skipped, the batch continues. -/
def processItem (item : Json) : Option Jogo :=
  (processItemE item).toOption

/-- `buscar_todos_jogos`, parameterized by the outcome of `_buscar_raw()`:
`Except.error` is a raised transport (or other) exception, `Except.ok` the
raw item list.  On error the function logs and returns `[]`; otherwise each
item is normalized (failures skipped) and the result is sorted by
(competition, kickoff time). -/
def buscar_todos_jogos (fetch : Except Unit (List Json)) : List Jogo :=
  match fetch with
  | Except.error _ => []
  | Except.ok items => List.insertionSort jogoRel (items.filterMap processItem)

/-- Round a rational to the nearest integer, halves to even, modelling
Python `round` (exact on rationals; no claim exercises a binary-float tie). -/
def roundHalfEvenZ (x : ℚ) : ℤ :=
  let n : ℤ := ⌊x⌋
  let frac : ℚ := x - (n : ℚ)
  if frac < 1 / 2 then n
  else if 1 / 2 < frac then n + 1
  else if n % 2 = 0 then n else n + 1

/-- Python `round(x, nd)`. -/
def pyRound (x : ℚ) (nd : Nat) : ℚ :=
  ((roundHalfEvenZ (x * (10 : ℚ) ^ nd) : ℤ) : ℚ) / (10 : ℚ) ^ nd

/-- The `apostas` sub-dictionary returned by `_calcular_roi_freebet`. -/
structure Apostas : Type where
  casa : ℚ
  empate : ℚ
  visitante_freebet : ℚ
deriving DecidableEq

/-- The dictionary returned by `_calcular_roi_freebet`. -/
structure RoiResult : Type where
  roi_pct : ℚ
  lucro_garantido : ℚ
  total_investido : ℚ
  apostas : Apostas
deriving DecidableEq

/-- `_calcular_roi_freebet`.  The body runs inside `try`/`except Exception`,
so every `ZeroDivisionError` becomes `none`: division by `odd_1`, by
`odd_x`, by `total_inv` and by `valor_freebet` are each guarded explicitly
here; `odd_2 - 1` is nonzero inside the `odd_2 > 1` branch.  The explicit
`inv_visitante is None` check of the source also returns `none`. -/
def calcular_roi_freebet (odd_1 odd_x odd_2 : ℚ) (valor_freebet : ℚ := 10) :
    Option RoiResult :=
  if odd_1 = 0 then none
  else if odd_x = 0 then none
  else if odd_2 > 1 then
    let inv_casa := 1 / odd_1
    let inv_empate := 1 / odd_x
    let inv_visitante := 1 / (odd_2 - 1)
    let total_inv := inv_casa + inv_empate + inv_visitante
    if total_inv = 0 then none
    else
      let stake_casa := valor_freebet / total_inv * inv_casa
      let stake_emp := valor_freebet / total_inv * inv_empate
      let stake_vis := valor_freebet
      let ret_casa := stake_casa * odd_1
      let ret_emp := stake_emp * odd_x
      let ret_vis := stake_vis * (odd_2 - 1)
      let lucro := min (min ret_casa ret_emp) ret_vis - stake_casa - stake_emp
      if valor_freebet = 0 then none
      else
        some { roi_pct := pyRound (lucro / valor_freebet * 100) 1
               lucro_garantido := pyRound lucro 2
               total_investido := pyRound (stake_casa + stake_emp) 2
               apostas := { casa := pyRound stake_casa 2
                            empate := pyRound stake_emp 2
                            visitante_freebet := pyRound stake_vis 2 } }
  else none

/-- The in-memory cache of `servidor.py`: `_cache_jogos` and `_cache_ts`. -/
structure CacheState : Type where
  jogos : Option (List Jogo)
  ts : ℚ

/-- `CACHE_TTL` (seconds). -/
def CACHE_TTL : ℚ := 60

/-- `_obter_jogos`, parameterized by the two `time.time()` readings (`now`
at the staleness check, `now2` when the timestamp is stored) and by the
list the provider call `buscar_todos_jogos()` would return.  The third
component records whether the provider collaborator was invoked. -/
def obter_jogos (st : CacheState) (now now2 : ℚ) (provider : List Jogo) :
    List Jogo × CacheState × Bool :=
  if st.jogos.isNone || decide (now - st.ts > CACHE_TTL) then
    (provider, ⟨some provider, now2⟩, true)
  else
    (st.jogos.getD [], st, false)

/-- `_invalidar_cache`: reset `_cache_ts` to the epoch value `0`. -/
def invalidar_cache (st : CacheState) : CacheState :=
  { st with ts := 0 }

/-- The query-filter portion of the `todas_casas` handler: the optional
`comp` (competition, exact case-insensitive) and `q` (free text, substring
of the match label or competition) parameters, applied in sequence. -/
def filtrar_todas_casas (jogos : List Jogo) (compArg qArg : String) : List Jogo :=
  let comp := pyStrip compArg
  let jogos1 :=
    if comp ≠ "" then
      jogos.filter (fun j => pyLower j.competicao = pyLower comp)
    else jogos
  let q := pyLower (pyStrip qArg)
  if q ≠ "" then
    jogos1.filter (fun j =>
      containsSub q.data (pyLower j.partida).data ||
        containsSub q.data (pyLower j.competicao).data)
  else jogos1

/-! ## Evaluation helpers -/

/-- Evaluation rule for `roundHalfEvenZ` when the fraction is below one half. -/
theorem roundHalfEvenZ_low {x : ℚ} {n : ℤ} (h1 : (n : ℚ) ≤ x) (h2 : x < (n : ℚ) + 1)
    (h3 : x - (n : ℚ) < 1 / 2) : roundHalfEvenZ x = n := by
  have hf : ⌊x⌋ = n := Int.floor_eq_iff.mpr ⟨h1, h2⟩
  simp only [roundHalfEvenZ, hf]
  rw [if_pos h3]

/-- Evaluation rule for `roundHalfEvenZ` when the fraction is above one half. -/
theorem roundHalfEvenZ_high {x : ℚ} {n : ℤ} (h1 : (n : ℚ) ≤ x) (h2 : x < (n : ℚ) + 1)
    (h3 : 1 / 2 < x - (n : ℚ)) : roundHalfEvenZ x = n + 1 := by
  have hf : ⌊x⌋ = n := Int.floor_eq_iff.mpr ⟨h1, h2⟩
  simp only [roundHalfEvenZ, hf]
  rw [if_neg (by linarith), if_pos h3]

/-- Destructuring a successful `Except` bind. -/
theorem exceptBind_ok {α β : Type} {x : Except Unit α} {f : α → Except Unit β} {c : β} :
    x >>= f = Except.ok c ↔ ∃ b, x = Except.ok b ∧ f b = Except.ok c := by
  cases x with
  | error e => simp [Bind.bind, Except.bind]
  | ok b => simp [Bind.bind, Except.bind]

/-- A successful `processItem` is a successful `processItemE`. -/
theorem processItem_some {item : Json} {j : Jogo} (h : processItem item = some j) :
    processItemE item = Except.ok j := by
  unfold processItem at h
  cases hpe : processItemE item with
  | error e => rw [hpe] at h; simp [Except.toOption] at h
  | ok b =>
    rw [hpe] at h
    simp only [Except.toOption, Option.some.injEq] at h
    subst h
    rfl

/-- What a successful per-item normalization pins down: the `best` field is
built by `mkBest` from the extracted `best` section, and the `casas` list is
the stable sort of the quotes built from the extracted `books` section, with
`total_casas` its length. -/
theorem processItemE_ok_parts {item : Json} {j : Jogo}
    (h : processItemE item = Except.ok j) :
    (∃ braw, pyGetD item "best" (Json.obj []) = Except.ok braw ∧
      mkBest braw = Except.ok j.best) ∧
    (∃ booksJ cs, pyGetD item "books" (Json.arr []) = Except.ok booksJ ∧
      processBooks booksJ = Except.ok cs ∧ j.casas = sortCasas cs ∧
      j.total_casas = j.casas.length) := by
  simp only [processItemE, exceptBind_ok, Except.ok.injEq] at h
  obtain ⟨mtch, h1, braw, h2, booksJ, h3, tc, ⟨tcJ, htc1, htc2⟩, tv, ⟨tvJ, htv1, htv2⟩,
    da, ⟨daJ, hda1, hda2⟩, ho, ⟨hoJ, hho1, hho2⟩, co, ⟨coJ, hco1, hco2⟩,
    best, h9, cs, h10, ks, ⟨ksJ, hks1, hks2⟩, hj⟩ := h
  subst hj
  exact ⟨⟨braw, h2, h9⟩, ⟨booksJ, cs, h3, h10, rfl, rfl⟩⟩

/-- `processBooksList` yields one `Casa` per raw book entry. -/
theorem processBooksList_length :
    ∀ {bs : List Json} {cs : List Casa},
      processBooksList bs = Except.ok cs → cs.length = bs.length := by
  intro bs
  induction bs with
  | nil =>
    intro cs h
    simp only [processBooksList, Except.ok.injEq] at h
    simp [← h]
  | cons b bs ih =>
    intro cs h
    simp only [processBooksList, exceptBind_ok, Except.ok.injEq] at h
    obtain ⟨c, hc, cs', hcs', rfl⟩ := h
    simp [ih hcs']

instance : IsTotal Casa casaRel := by
  constructor
  intro a b
  rcases lt_trichotomy (bestKey a) (bestKey b) with h | h | h
  · exact Or.inl (Or.inl h)
  · rcases le_total a.nome_display.data b.nome_display.data with hs | hs
    · exact Or.inl (Or.inr ⟨h, hs⟩)
    · exact Or.inr (Or.inr ⟨h.symm, hs⟩)
  · exact Or.inr (Or.inl h)

instance : IsTrans Casa casaRel := by
  constructor
  intro a b c hab hbc
  rcases hab with h1 | ⟨e1, s1⟩ <;> rcases hbc with h2 | ⟨e2, s2⟩
  · exact Or.inl (h1.trans h2)
  · exact Or.inl (e2 ▸ h1)
  · exact Or.inl (e1 ▸ h2)
  · exact Or.inr ⟨e1.trans e2, s1.trans s2⟩

/-- The sort key order of `casas.sort` implies the spec's invariant between
any two list neighbours: no non-best quote precedes a best one, and equal
best-status neighbours are ordered by display name. -/
theorem casaRel_imp {a b : Casa} (h : casaRel a b) :
    (casaBest b = true → casaBest a = true) ∧
    (casaBest a = casaBest b → a.nome_display.data ≤ b.nome_display.data) := by
  rcases h with h | ⟨e, s⟩ <;>
    cases ha : casaBest a <;> cases hb : casaBest b <;>
      simp_all [bestKey]

/-! ## Concrete payloads used as witnesses -/

/-- A well-formed raw item: a `match` object, a `best` section in
numeric-key style and one `books` entry. -/
def itemGood : Json :=
  Json.obj
    [("key", Json.str "G1"),
     ("match", Json.obj
        [("team1", Json.str "Flamengo"), ("team2", Json.str "Vasco"),
         ("date", Json.str "25/02"), ("kickoff_display", Json.str "22:00"),
         ("competition", Json.str "Brasil")]),
     ("best", Json.obj
        [("1", Json.obj [("odd", Json.num 2), ("bookmakers", Json.arr [Json.str "bet365"])])]),
     ("books", Json.arr
        [Json.obj [("bookmaker", Json.str "bet365"), ("odd1", Json.num 2),
                   ("isBest1", Json.bool true)]])]

/-- The Match produced for an empty raw object (all defaults). -/
def jogoVazio : Jogo :=
  { id := "?|?", partida := "? vs ?", time_casa := "?", time_visitante := "?"
    competicao := "", data := "", hora := "", total_casas := 0
    best := ⟨⟨Json.num 0, Json.arr []⟩, ⟨Json.num 0, Json.arr []⟩, ⟨Json.num 0, Json.arr []⟩⟩
    casas := [] }

/-- A raw book entry flagged best for the home outcome. -/
def bk1 : Json :=
  Json.obj [("bookmaker", Json.str "bet365"), ("odd1", Json.num 2),
            ("isBest1", Json.bool true)]

/-- A raw book entry with no best flag. -/
def bk2 : Json :=
  Json.obj [("bookmaker", Json.str "aposta1"), ("oddX", Json.num 3)]

/-- A raw item with two book entries and no `best` section. -/
def item1 : Json :=
  Json.obj
    [("match", Json.obj [("team1", Json.str "A"), ("team2", Json.str "B")]),
     ("books", Json.arr [bk1, bk2])]

/-- The quote built from `bk1`. -/
def casa1 : Casa :=
  ⟨"bet365", "Bet365", Json.num 2, Json.num 0, Json.num 0,
   Json.bool true, Json.bool false, Json.bool false, Json.str "", Json.str ""⟩

/-- The quote built from `bk2`. -/
def casa2 : Casa :=
  ⟨"aposta1", "Aposta1", Json.num 0, Json.num 3, Json.num 0,
   Json.bool false, Json.bool false, Json.bool false, Json.str "", Json.str ""⟩

/-- The Match produced from `item1`. -/
def jogo1 : Jogo :=
  { id := "a|b", partida := "A vs B", time_casa := "A", time_visitante := "B"
    competicao := "", data := "", hora := "", total_casas := 2
    best := ⟨⟨Json.num 0, Json.arr []⟩, ⟨Json.num 0, Json.arr []⟩, ⟨Json.num 0, Json.arr []⟩⟩
    casas := [casa1, casa2] }

/-! ## Claim theorems -/

/-- C1, counterexample: a two-item payload, one well-formed item and one
(empty) object lacking the `match` key, yields two Matches, not one — the
missing `match` key is replaced by `\x7b\x7d` via `.get`, so the item is
normalized with defaults instead of being skipped. -/
theorem C1_counterexample :
    (buscar_todos_jogos (Except.ok [itemGood, Json.obj []])).length ≠ 1 := by
  decide

/-- C1, amended: an item that is an object lacking the `match` key is not
skipped — it is normalized with default values (`"?"` team names), so the
two-item payload produces exactly two Matches; an item is skipped without
aborting the batch only when its processing raises, e.g. when the item is
not an object at all (`null`), in which case the same payload produces
exactly one Match. -/
theorem C1_main :
    (buscar_todos_jogos (Except.ok [itemGood, Json.obj []])).length = 2 ∧
      processItem (Json.obj []) = some jogoVazio ∧
      (buscar_todos_jogos (Except.ok [itemGood, Json.null])).length = 1 :=
  ⟨rfl, rfl, rfl⟩

/-- C5: the best-odds resolver prefers the numeric-style key (here with a
truthy value under it) over the alphabetic-style key, falls back to the
alphabetic-style value when the numeric-style key is absent, yields
`{odd: 0, bookmakers: []}` when neither key is present, and for an item
with no `best` section at all every slot of the produced Match's best
field is the `{odd: 0, bookmakers: []}` default. -/
theorem C5_main : ∀ (kN kA : String), kN ≠ kA → ∀ (oN oA : ℚ) (bmN bmA : List Json),
    (oN ≠ 0 → bmN ≠ [] →
      resolveBestSlot (Json.obj
        [(kN, Json.obj [("odd", Json.num oN), ("bookmakers", Json.arr bmN)]),
         (kA, Json.obj [("odd", Json.num oA), ("bookmakers", Json.arr bmA)])]) kN kA =
        Except.ok ⟨Json.num oN, Json.arr bmN⟩) ∧
    (resolveBestSlot (Json.obj
        [(kA, Json.obj [("odd", Json.num oA), ("bookmakers", Json.arr bmA)])]) kN kA =
        Except.ok ⟨Json.num oA, Json.arr bmA⟩) ∧
    (resolveBestSlot (Json.obj []) kN kA = Except.ok ⟨Json.num 0, Json.arr []⟩) ∧
    (∀ (kvs : List (String × Json)) (j : Jogo), lookupKV kvs "best" = none →
      processItem (Json.obj kvs) = some j →
      j.best = ⟨⟨Json.num 0, Json.arr []⟩, ⟨Json.num 0, Json.arr []⟩,
                ⟨Json.num 0, Json.arr []⟩⟩) := by
  intro kN kA hne oN oA bmN bmA
  refine ⟨?_, ?_, ?_, ?_⟩
  · intro hoN hbmN
    have hbm : bmN.isEmpty = false := by
      cases bmN with
      | nil => exact absurd rfl hbmN
      | cons b bs => rfl
    simp [resolveBestSlot, resolveBestField, pyGetD, pyGetN, lookupKV,
      Json.truthy, Bind.bind, Except.bind, hoN, hbm, Ne.symm hne]
  · simp [resolveBestSlot, resolveBestField, pyGetD, pyGetN, lookupKV,
      Json.truthy, Bind.bind, Except.bind, Ne.symm hne]
  · rfl
  · intro kvs j hlk hpi
    obtain ⟨⟨braw, hb, hmk⟩, -⟩ := processItemE_ok_parts (processItem_some hpi)
    have hbr : braw = Json.obj [] := by
      simp only [pyGetD, hlk, Option.getD] at hb
      exact (Except.ok.inj hb).symm
    subst hbr
    have h0 : mkBest (Json.obj []) =
        Except.ok ⟨⟨Json.num 0, Json.arr []⟩, ⟨Json.num 0, Json.arr []⟩,
                   ⟨Json.num 0, Json.arr []⟩⟩ := rfl
    exact (Except.ok.inj (hmk.symm.trans h0))

/-- C5, witness: the numeric-style key wins over the alphabetic-style key
at the concrete slot keys used by the source. -/
theorem C5_witness :
    resolveBestSlot (Json.obj
      [("1", Json.obj [("odd", Json.num 2), ("bookmakers", Json.arr [Json.str "bet365"])]),
       ("odd1", Json.obj [("odd", Json.num 3), ("bookmakers", Json.arr [])])]) "1" "odd1" =
      Except.ok ⟨Json.num 2, Json.arr [Json.str "bet365"]⟩ :=
  ((C5_main "1" "odd1" (by decide) 2 3 [Json.str "bet365"] []).1)
    (by norm_num) (by simp)

/-- C6: in every Match the normalizer produces, the bookmaker quotes are
ordered so that a quote with at least one best flag never follows a quote
with none, and quotes of equal best status are in non-decreasing display
name order (lexicographic on characters). -/
theorem C6_main : ∀ (fetch : Except Unit (List Json)) (j : Jogo),
    j ∈ buscar_todos_jogos fetch →
    List.Pairwise (fun a b =>
      (casaBest b = true → casaBest a = true) ∧
      (casaBest a = casaBest b → a.nome_display.data ≤ b.nome_display.data)) j.casas := by
  intro fetch j hj
  cases fetch with
  | error e => simp [buscar_todos_jogos] at hj
  | ok items =>
    simp only [buscar_todos_jogos, List.mem_insertionSort, List.mem_filterMap] at hj
    obtain ⟨item, -, hitem⟩ := hj
    obtain ⟨-, booksJ, cs, -, -, hcasas, -⟩ :=
      processItemE_ok_parts (processItem_some hitem)
    rw [hcasas]
    exact List.Pairwise.imp (fun h => casaRel_imp h)
      (List.sorted_insertionSort casaRel cs)

/-- C6, witness: the Match built from `item1` (a best-flagged quote and a
plain one) satisfies the ordering invariant. -/
theorem C6_witness :
    List.Pairwise (fun a b =>
      (casaBest b = true → casaBest a = true) ∧
      (casaBest a = casaBest b → a.nome_display.data ≤ b.nome_display.data))
      jogo1.casas :=
  C6_main (Except.ok [item1]) jogo1 (by
    rw [show buscar_todos_jogos (Except.ok [item1]) = [jogo1] from rfl]
    exact List.mem_singleton_self jogo1)

/-- C9: the query filter keeps exactly the matches passing both optional
filters: a non-empty (after stripping) competition filter demands
case-insensitive equality with the competition field, a non-empty search
text demands lowercased substring containment in the match label or the
competition, and empty or whitespace-only values impose nothing. -/
theorem C9_main : ∀ (jogos : List Jogo) (comp q : String) (j : Jogo),
    j ∈ filtrar_todas_casas jogos comp q ↔
      j ∈ jogos ∧
        (pyStrip comp ≠ "" → pyLower j.competicao = pyLower (pyStrip comp)) ∧
        (pyLower (pyStrip q) ≠ "" →
          (containsSub (pyLower (pyStrip q)).data (pyLower j.partida).data = true ∨
           containsSub (pyLower (pyStrip q)).data (pyLower j.competicao).data = true)) := by
  intro jogos comp q j
  unfold filtrar_todas_casas
  by_cases h1 : pyStrip comp = "" <;> by_cases h2 : pyLower (pyStrip q) = "" <;>
    (simp [h1, h2, List.mem_filter, and_assoc]; try tauto)

/-- C9, witness: whitespace-only filters keep every match. -/
theorem C9_witness : jogoVazio ∈ filtrar_todas_casas [jogoVazio] " " "" :=
  (C9_main [jogoVazio] " " "" jogoVazio).mpr
    ⟨List.mem_singleton_self _, fun h => absurd rfl h, fun h => absurd rfl h⟩

/-- C10: in every Match the normalizer produces, `total_casas` equals the
length of the `casas` list, and that list holds exactly one quote per entry
of the raw `books` list. -/
theorem C10_main : ∀ (item : Json) (j : Jogo) (bs : List Json),
    processItem item = some j →
    pyGetD item "books" (Json.arr []) = Except.ok (Json.arr bs) →
    j.total_casas = j.casas.length ∧ j.casas.length = bs.length := by
  intro item j bs hpi hbooks
  obtain ⟨-, booksJ, cs, h3, h10, hcasas, htot⟩ :=
    processItemE_ok_parts (processItem_some hpi)
  have hbJ : booksJ = Json.arr bs := Except.ok.inj (h3.symm.trans hbooks)
  subst hbJ
  refine ⟨htot, ?_⟩
  rw [hcasas, sortCasas, List.length_insertionSort]
  exact processBooksList_length h10

/-- C10, witness: the Match built from the two-book item carries
`total_casas = 2` and one quote per raw book. -/
theorem C10_witness :
    jogo1.total_casas = jogo1.casas.length ∧
      jogo1.casas.length = ([bk1, bk2] : List Json).length :=
  C10_main item1 jogo1 [bk1, bk2] rfl rfl

/-- C2, counterexample: the claim says any odd ≤ 1 makes the calculator
return no result, but `_calcular_roi_freebet` itself performs no such
check for the home odd: at `oddHome = 0.9` (≤ 1) it returns a result. -/
theorem C2_counterexample :
    ((9 : ℚ) / 10 ≤ 1) ∧ calcular_roi_freebet ((9 : ℚ) / 10) 3 4 10 ≠ none := by
  constructor
  · norm_num
  · simp only [calcular_roi_freebet]
    norm_num
    exact Option.some_ne_none _

/-- C2, amended: `_calcular_roi_freebet` returns `none` whenever
`oddAway ≤ 1` (the explicit guard) or `oddHome = 0` or `oddDraw = 0`
(division by zero, caught by the `except`); it is a total function, so it
never raises to its caller.  An `oddHome` or `oddDraw` in `(0, 1]` is not
rejected by the calculator — the caller `buscar_odds_freebet` filters
odds ≤ 1 before invoking it. -/
theorem C2_main : ∀ odd_1 odd_x odd_2 fb : ℚ,
    odd_2 ≤ 1 ∨ odd_1 = 0 ∨ odd_x = 0 →
    calcular_roi_freebet odd_1 odd_x odd_2 fb = none := by
  intro o1 ox o2 fb h
  unfold calcular_roi_freebet
  split_ifs with h1 h2 h3 h4
  all_goals try rfl
  all_goals exfalso
  all_goals rcases h with h | h | h
  all_goals first
    | exact absurd h3 (not_lt.mpr h)
    | exact h1 h
    | exact h2 h

/-- C2, witness: at `oddAway = 1` the calculator returns no result. -/
theorem C2_witness : calcular_roi_freebet 2 3 1 10 = none :=
  C2_main 2 3 1 10 (Or.inl (by norm_num))

/-- C3: at `oddHome = 2, oddDraw = 3, oddAway = 4, freebetValue = 10` the
calculator returns an allocation whose guaranteed profit (1.43) lies
strictly between 0 and 10 and whose away-outcome stake is exactly 10. -/
theorem C3_main :
    ∃ res, calcular_roi_freebet 2 3 4 10 = some res ∧
      0 < res.lucro_garantido ∧ res.lucro_garantido < 10 ∧
      res.apostas.visitante_freebet = 10 := by
  have e1 : pyRound ((10 : ℚ) / 7) 2 = 143 / 100 := by
    have : roundHalfEvenZ ((10 : ℚ) / 7 * (10 : ℚ) ^ 2) = 143 := by
      have h := roundHalfEvenZ_high (x := (10 : ℚ) / 7 * (10 : ℚ) ^ 2) (n := 142)
        (by norm_num) (by norm_num) (by norm_num)
      rw [h]
      norm_num
    simp only [pyRound, this]
    norm_num
  have e2 : pyRound (10 : ℚ) 2 = 10 := by
    have : roundHalfEvenZ ((10 : ℚ) * (10 : ℚ) ^ 2) = 1000 := by
      exact roundHalfEvenZ_low (x := (10 : ℚ) * (10 : ℚ) ^ 2) (n := 1000)
        (by norm_num) (by norm_num) (by norm_num)
    simp only [pyRound, this]
    norm_num
  refine ⟨{ roi_pct := pyRound ((100 : ℚ) / 7) 1
            lucro_garantido := pyRound ((10 : ℚ) / 7) 2
            total_investido := pyRound ((50 : ℚ) / 7) 2
            apostas := { casa := pyRound ((30 : ℚ) / 7) 2
                         empate := pyRound ((20 : ℚ) / 7) 2
                         visitante_freebet := pyRound (10 : ℚ) 2 } }, ?_, ?_, ?_, ?_⟩
  · simp only [calcular_roi_freebet]
    norm_num [min_def]
  · rw [e1]
    norm_num
  · rw [e1]
    norm_num
  · rw [e2]

/-- C4, counterexample: at cache age exactly equal to the TTL (60 s) the
claim demands a refresh (`now - fetchedAt ≥ TTL`), but the source condition
is strictly `> CACHE_TTL`, so the cached list is served with no provider
call. -/
theorem C4_counterexample :
    CACHE_TTL ≤ (60 : ℚ) - (0 : ℚ) ∧
      obter_jogos ⟨some [], 0⟩ 60 60 [] = ([], ⟨some [], 0⟩, false) := by
  constructor
  · norm_num [CACHE_TTL]
  · simp [obter_jogos, CACHE_TTL, show ¬((60 : ℚ) - 0 > 60) by norm_num]

/-- C4, amended: `_obter_jogos` refreshes exactly when no prior fetch
exists or the cache age strictly exceeds the TTL of 60 seconds; when a
prior fetch exists and the age is at most the TTL (boundary included), the
cached sequence is returned with no provider call. -/
theorem C4_main : ∀ (st : CacheState) (now now2 : ℚ) (provider : List Jogo),
    (st.jogos = none →
      obter_jogos st now now2 provider = (provider, ⟨some provider, now2⟩, true)) ∧
    (now - st.ts > CACHE_TTL →
      obter_jogos st now now2 provider = (provider, ⟨some provider, now2⟩, true)) ∧
    (∀ js, st.jogos = some js → now - st.ts ≤ CACHE_TTL →
      obter_jogos st now now2 provider = (js, st, false)) := by
  intro st now now2 provider
  refine ⟨fun h => ?_, fun h => ?_, fun js hjs h => ?_⟩
  · simp [obter_jogos, h]
  · simp [obter_jogos, h]
  · simp [obter_jogos, hjs, not_lt.mpr h]

/-- C4, witness: a cold cache triggers a refresh storing the provider
result and the new timestamp. -/
theorem C4_witness : obter_jogos ⟨none, 0⟩ 5 7 [] = ([], ⟨some [], 7⟩, true) :=
  (C4_main ⟨none, 0⟩ 5 7 []).1 rfl

/-- C7: `_invalidar_cache` sets the timestamp to the epoch value 0 and
leaves the cached matches (the only other state component) unchanged, and
the next `_obter_jogos` call refreshes regardless of whether matches are
populated — for any wall-clock reading past the TTL, i.e. any real clock,
which is far past 60 seconds after the epoch. -/
theorem C7_main : ∀ (st : CacheState) (now now2 : ℚ) (provider : List Jogo),
    (invalidar_cache st).jogos = st.jogos ∧ (invalidar_cache st).ts = 0 ∧
      (CACHE_TTL < now →
        (obter_jogos (invalidar_cache st) now now2 provider).2.2 = true) := by
  intro st now now2 provider
  refine ⟨rfl, rfl, fun h => ?_⟩
  have hgt : now - (invalidar_cache st).ts > CACHE_TTL := by
    simp only [invalidar_cache]
    linarith
  simp [obter_jogos, hgt]

/-- C7, witness: invalidating a populated, fresh cache keeps the matches
and forces the next read to call the provider. -/
theorem C7_witness :
    (invalidar_cache ⟨some [], 100⟩).jogos = some [] ∧
      (obter_jogos (invalidar_cache ⟨some [], 100⟩) 100 100 []).2.2 = true := by
  have h := C7_main ⟨some [], 100⟩ 100 100 []
  exact ⟨h.1, h.2.2 (by norm_num [CACHE_TTL])⟩

/-- C8: when the upstream fetch raises, `buscar_todos_jogos` catches the
exception and returns the empty sequence — it neither raises nor yields
prior data. -/
theorem C8_main : buscar_todos_jogos (Except.error ()) = [] := rfl

end STGRadar
